import Mathlib

/-
Shallow embedding of the aduanas dashboard's data pipeline (src/app.py):
the dataset loader `get_data`, the port classifier `classify_port_type`,
the filter engine `filter_data`, and the per-component aggregation logic
(data cards, ranking table, top-N bar, scatter, diversity ranking,
treemap, radar).

Modelling conventions:
- A pandas dataframe row is a `Row`; a dataframe is a `List Row`.
- The nullable numeric columns (pandas Float64 for kilo_neto / kilo_bruto /
  total, Int64 for mercaderias_distintas) are modelled as `Option Int`:
  a comparison against a null value is False in pandas, which the
  Option-matching predicates below reproduce, and none of the verified
  properties depends on non-integral float values or float rounding.
- Derived ratio, scale and normalized metrics (radar ratios, treemap and
  bar scale columns, scatter point sizes, card averages) are exact
  rationals (ℚ); a pandas division whose divisor is zero produces a
  non-finite float (inf or NaN), modelled as `none`.
- Python string lowercasing is modelled ASCII-only (`Char.toLower`),
  which agrees with Python `str.lower` on all ASCII office names.
-/

structure Row where
  aduana : String
  kilo_neto : Option Int
  kilo_bruto : Option Int
  total : Option Int
  mercaderias_distintas : Option Int
  port_type : Option String := none
  deriving DecidableEq, Repr

/-- The eleven filter parameters fed to `filter_data` (one per UI control).
`top_ports_filter = none` encodes the "all" sentinel; a `some n` is the
integer cutoff after the source's `int(...)` conversion. -/
structure Filters where
  port_selection : List String
  top_ports_filter : Option Nat
  port_type_filter : List String
  total_value_min : Int
  total_value_max : Int
  net_weight_min : Int
  net_weight_max : Int
  gross_weight_min : Int
  gross_weight_max : Int
  merchandise_count_min : Int
  merchandise_count_max : Int
  deriving DecidableEq, Repr

/-- Check that `n` is a prefix of `h` (character lists). -/
def prefAux : List Char → List Char → Bool
  | [], _ => true
  | _ :: _, [] => false
  | a :: as, b :: bs => a == b && prefAux as bs

/-- Check that `n` occurs contiguously inside `h` (character lists);
this is Python's `n in h` on strings. -/
def subAux : List Char → List Char → Bool
  | n, [] => n.isEmpty
  | n, b :: hs => prefAux n (b :: hs) || subAux n hs

/-- Python `needle in hay` for strings. -/
def strHas (needle hay : String) : Bool := subAux needle.data hay.data

/-- Python `str.lower`, ASCII-only. -/
def lowerStr (s : String) : String := ⟨s.data.map Char.toLower⟩

/-- src/app.py lines 740-749: keyword heuristic mapping an office name to
one of four port-type strings; first matching group wins, "Land Border"
is the default. -/
def classify_port_type (port_name : String) : String :=
  let l := lowerStr port_name
  if strHas "aerop" l || strHas "airport" l then "Airport"
  else if strHas "pto" l || strHas "puerto" l || strHas "port" l then "Seaport"
  else if strHas "za" l || strHas "zona" l || strHas "frca" l then "Free Zone"
  else "Land Border"

/-- Spec-side model of §4.2: an explicit ordered list of
(category, keyword-group) pairs, evaluated top-down. -/
def keywordGroups : List (String × List String) :=
  [("Airport", ["aerop", "airport"]),
   ("Seaport", ["pto", "puerto", "port"]),
   ("Free Zone", ["za", "zona", "frca"])]

/-- Spec-side model of §4.2: first group with a matching keyword wins,
default "Land Border". -/
def firstMatch : List (String × List String) → String → String
  | [], _ => "Land Border"
  | (cat, kws) :: rest, l => if kws.any (fun k => strHas k l) then cat else firstMatch rest l

/-- Spec-side classifier: case-insensitive first-match over `keywordGroups`. -/
def specClassify (name : String) : String := firstMatch keywordGroups (lowerStr name)

/-- src/app.py line 751: the office-membership filter runs only when the
selection is non-empty and does not contain the "all" sentinel. -/
def officeActive (f : Filters) : Bool :=
  !f.port_selection.isEmpty && !f.port_selection.contains "all"

/-- src/app.py lines 751-752: keep rows whose office name is in the selected set. -/
def step_office (f : Filters) (t : List Row) : List Row :=
  if officeActive f then t.filter (fun r => f.port_selection.contains r.aduana) else t

/-- Descending order on the row-level `total` column (rows with a null
total are removed before this relation is used, mirroring `nlargest`,
which ignores nulls). -/
def rowTotalDesc (a b : Row) : Prop := b.total.getD 0 ≤ a.total.getD 0

instance : DecidableRel rowTotalDesc := fun a b =>
  inferInstanceAs (Decidable (b.total.getD 0 ≤ a.total.getD 0))

/-- src/app.py line 756: `df.nlargest(top_n, "total")["ADUANA"].tolist()` —
the offices of the `n` rows with greatest row-level total value.  Rows
with a null total are ignored by `nlargest`; ties keep earlier rows
(`keep='first'`), which the stable insertion sort reproduces. -/
def topPortNames (n : Nat) (t : List Row) : List String :=
  ((List.insertionSort rowTotalDesc (t.filter (fun r => r.total.isSome))).take n).map (·.aduana)

/-- src/app.py lines 754-757: when the top-N cutoff is not "all", keep only
rows whose office appears among the offices of the `n` largest-total rows. -/
def step_top (f : Filters) (t : List Row) : List Row :=
  match f.top_ports_filter with
  | none => t
  | some n => t.filter (fun r => (topPortNames n t).contains r.aduana)

/-- src/app.py line 760: `df["port_type"] = df["ADUANA"].apply(classify_port_type)`
viewed row-wise — the classification column added to every current row. -/
def addPT (r : Row) : Row := { r with port_type := some (classify_port_type r.aduana) }

/-- src/app.py line 759: the port-type filter runs only when the selection
is non-empty and does not contain the "all" sentinel. -/
def ptypeActive (f : Filters) : Bool :=
  !f.port_type_filter.isEmpty && !f.port_type_filter.contains "all"

/-- src/app.py lines 759-761: assign the `port_type` column, then keep rows
whose classification is in the selected category set (`isin` is False on
a null value). -/
def step_ptype (f : Filters) (t : List Row) : List Row :=
  if ptypeActive f then
    (t.map addPT).filter (fun r =>
      match r.port_type with
      | some c => f.port_type_filter.contains c
      | none => false)
  else t

/-- A pandas two-sided range condition `lo <= col` and `col <= hi` on a
nullable column: null compares False on both sides, so a null-valued row
is dropped. -/
def inRangeI (lo hi : Int) : Option Int → Bool
  | none => false
  | some v => decide (lo ≤ v) && decide (v ≤ hi)

/-- src/app.py lines 763-777: the four numeric range filters, applied
sequentially (each of the source's min/max pair of row-subset steps is
one `filter` with the conjoined bounds, which keeps the same rows). -/
def step_ranges (f : Filters) (t : List Row) : List Row :=
  ((((t.filter (fun r => inRangeI f.total_value_min f.total_value_max r.total)).filter
      (fun r => inRangeI f.net_weight_min f.net_weight_max r.kilo_neto)).filter
      (fun r => inRangeI f.gross_weight_min f.gross_weight_max r.kilo_bruto)).filter
      (fun r => inRangeI f.merchandise_count_min f.merchandise_count_max r.mercaderias_distintas))

/-- src/app.py lines 734-782: the filter engine — office membership, then
top-N, then port-type, then the four numeric ranges.  The source's
`df.copy()` makes every step act on a fresh frame; the embedding is pure,
so the input list is never modified. -/
def filter_data (f : Filters) (t : List Row) : List Row :=
  step_ranges f (step_ptype f (step_top f (step_office f t)))

/-- Membership in the range step decomposes into membership plus the four
range predicates. -/
theorem mem_step_ranges {f : Filters} {t : List Row} {r : Row} :
    r ∈ step_ranges f t ↔ r ∈ t ∧
      inRangeI f.total_value_min f.total_value_max r.total = true ∧
      inRangeI f.net_weight_min f.net_weight_max r.kilo_neto = true ∧
      inRangeI f.gross_weight_min f.gross_weight_max r.kilo_bruto = true ∧
      inRangeI f.merchandise_count_min f.merchandise_count_max r.mercaderias_distintas = true := by
  simp only [step_ranges, List.mem_filter]
  tauto

/-- In-range values are present (non-null). -/
theorem inRangeI_isSome {lo hi : Int} {v : Option Int} (h : inRangeI lo hi v = true) :
    v.isSome = true := by
  cases v with
  | none => simp [inRangeI] at h
  | some x => rfl

/-- C9.  Every row surviving `filter_data` has all four numeric columns
non-null: a null value fails both inclusive bound comparisons in pandas,
so the range filters never retain a null-valued row, whatever the bounds. -/
theorem filter_drops_null_rows (f : Filters) (t : List Row) (r : Row)
    (h : r ∈ filter_data f t) :
    r.total.isSome = true ∧ r.kilo_neto.isSome = true ∧
    r.kilo_bruto.isSome = true ∧ r.mercaderias_distintas.isSome = true := by
  rcases mem_step_ranges.1 h with ⟨-, h1, h2, h3, h4⟩
  exact ⟨inRangeI_isSome h1, inRangeI_isSome h2, inRangeI_isSome h3, inRangeI_isSome h4⟩

/-- A concrete row used by the C9 witness. -/
def w9row : Row := ⟨"PUERTO X", some 5, some 6, some 7, some 2, none⟩

/-- Wide-open filter parameters used by the C9 witness. -/
def w9f : Filters := ⟨["all"], none, ["all"], 0, 10, 0, 10, 0, 10, 0, 10⟩

/-- Witness for C9: a concrete row with all columns present survives a
wide-open filter, and the theorem applies to it. -/
theorem filter_drops_null_rows_witness :
    w9row ∈ filter_data w9f [w9row] ∧
    (w9row.total.isSome = true ∧ w9row.kilo_neto.isSome = true ∧
     w9row.kilo_bruto.isSome = true ∧ w9row.mercaderias_distintas.isSome = true) :=
  ⟨by decide, filter_drops_null_rows w9f [w9row] w9row (by decide)⟩

/-- Forget the derived classification column, keeping the five loaded
columns: used to compare rows across the schema change of the port-type
step. -/
def stripPT (r : Row) : Row := { r with port_type := none }

theorem addPT_aduana (r : Row) : (addPT r).aduana = r.aduana := rfl

theorem addPT_idem (r : Row) : addPT (addPT r) = addPT r := rfl

theorem stripPT_addPT (r : Row) : stripPT (addPT r) = stripPT r := rfl

/-- A map that fixes every member of a list is the identity on it. -/
theorem map_id_of_mem {α : Type} {l : List α} {g : α → α} (h : ∀ a ∈ l, g a = a) :
    l.map g = l :=
  (List.map_congr_left h).trans (List.map_id l)

theorem sublist_step_office (f : Filters) (t : List Row) :
    (step_office f t).Sublist t := by
  unfold step_office
  split
  · exact List.filter_sublist t
  · exact List.Sublist.refl t

theorem sublist_step_top (f : Filters) (t : List Row) :
    (step_top f t).Sublist t := by
  unfold step_top
  split
  · exact List.Sublist.refl t
  · exact List.filter_sublist t

theorem sublist_step_ranges (f : Filters) (t : List Row) :
    (step_ranges f t).Sublist t :=
  (((List.filter_sublist _).trans (List.filter_sublist _)).trans
    (List.filter_sublist _)).trans (List.filter_sublist _)

theorem step_ptype_inactive {f : Filters} (h : ptypeActive f = false) (t : List Row) :
    step_ptype f t = t := by
  simp [step_ptype, h]

/-- Decomposition of membership in the active port-type step: the row is
the port-type-annotated image of a row of the input, and its
classification passed the membership test. -/
theorem mem_step_ptype_active {f : Filters} {t : List Row} {r : Row}
    (ha : ptypeActive f = true) (h : r ∈ step_ptype f t) :
    ∃ r' ∈ t, r = addPT r' ∧
      (match r.port_type with
       | some c => f.port_type_filter.contains c
       | none => false) = true := by
  simp only [step_ptype, ha, if_true] at h
  rcases List.mem_filter.1 h with ⟨hm, hp⟩
  rcases List.mem_map.1 hm with ⟨r', hr', rfl⟩
  exact ⟨r', hr', rfl, hp⟩

theorem strip_sublist_step_ptype (f : Filters) (t : List Row) :
    ((step_ptype f t).map stripPT).Sublist (t.map stripPT) := by
  unfold step_ptype
  split
  · have h1 : ((List.filter
        (fun r => match r.port_type with
          | some c => f.port_type_filter.contains c
          | none => false) (t.map addPT)).map stripPT).Sublist
        ((t.map addPT).map stripPT) :=
      List.Sublist.map stripPT (List.filter_sublist _)
    rwa [List.map_map, show stripPT ∘ addPT = stripPT from funext stripPT_addPT] at h1
  · exact List.Sublist.refl _

/-- C2 (amended).  `filter_data` fabricates no rows: modulo the derived
port-type column, its output is a sublist of the input.  When the top-N
cutoff is the "all" sentinel, the filter is also idempotent.  (With an
active top-N cutoff idempotence fails, see the counterexample: re-running
the top-N selection on the already-filtered rows can pick a different
office set once the range filters have removed the rows that carried an
office into the original top N.) -/
theorem filter_subset_and_idem (f : Filters) (t : List Row) :
    ((filter_data f t).map stripPT).Sublist (t.map stripPT) ∧
    (f.top_ports_filter = none → filter_data f (filter_data f t) = filter_data f t) := by
  constructor
  · have s1 := List.Sublist.map stripPT
      (sublist_step_ranges f (step_ptype f (step_top f (step_office f t))))
    have s2 := strip_sublist_step_ptype f (step_top f (step_office f t))
    have s3 := List.Sublist.map stripPT (sublist_step_top f (step_office f t))
    have s4 := List.Sublist.map stripPT (sublist_step_office f t)
    exact ((s1.trans s2).trans s3).trans s4
  · intro hn
    have htop : ∀ u : List Row, step_top f u = u := fun u => by simp [step_top, hn]
    have hout : filter_data f t = step_ranges f (step_ptype f (step_office f t)) := by
      unfold filter_data
      rw [htop]
    have hmem3 : ∀ r ∈ filter_data f t, r ∈ step_ptype f (step_office f t) := by
      intro r hr
      rw [hout] at hr
      exact (mem_step_ranges.1 hr).1
    have hranges : ∀ r ∈ filter_data f t,
        inRangeI f.total_value_min f.total_value_max r.total = true ∧
        inRangeI f.net_weight_min f.net_weight_max r.kilo_neto = true ∧
        inRangeI f.gross_weight_min f.gross_weight_max r.kilo_bruto = true ∧
        inRangeI f.merchandise_count_min f.merchandise_count_max
          r.mercaderias_distintas = true := by
      intro r hr
      rw [hout] at hr
      exact (mem_step_ranges.1 hr).2
    -- every surviving row still passes the office-membership predicate
    have hoff2 : step_office f (filter_data f t) = filter_data f t := by
      unfold step_office
      split
      case isTrue hofa =>
        apply List.filter_eq_self.mpr
        intro r hr
        by_cases ha : ptypeActive f = true
        · rcases mem_step_ptype_active ha (hmem3 r hr) with ⟨r', hr', rfl, -⟩
          have hr1 : r' ∈ List.filter (fun r => f.port_selection.contains r.aduana) t := by
            simpa [step_office, hofa] using hr'
          simpa [addPT] using (List.mem_filter.1 hr1).2
        · have ha' : ptypeActive f = false := by simpa using ha
          have hr0 : r ∈ step_office f t := by
            have h3 := hmem3 r hr
            rwa [step_ptype_inactive ha'] at h3
          have hr1 : r ∈ List.filter (fun r => f.port_selection.contains r.aduana) t := by
            simpa [step_office, hofa] using hr0
          exact (List.mem_filter.1 hr1).2
      case isFalse => rfl
    -- re-running the port-type step fixes every surviving row
    have hpt2 : step_ptype f (filter_data f t) = filter_data f t := by
      by_cases ha : ptypeActive f = true
      · have hfix : ∀ r ∈ filter_data f t, addPT r = r := by
          intro r hr
          rcases mem_step_ptype_active ha (hmem3 r hr) with ⟨r', -, rfl, -⟩
          exact addPT_idem r'
        have hpred : ∀ r ∈ filter_data f t,
            (match r.port_type with
             | some c => f.port_type_filter.contains c
             | none => false) = true := by
          intro r hr
          exact (mem_step_ptype_active ha (hmem3 r hr)).choose_spec.2.2
        simp only [step_ptype, ha, if_true]
        rw [map_id_of_mem hfix]
        exact List.filter_eq_self.mpr hpred
      · have ha' : ptypeActive f = false := by simpa using ha
        exact step_ptype_inactive ha' _
    -- re-running the range filters keeps every surviving row
    have hrg2 : step_ranges f (filter_data f t) = filter_data f t := by
      have h1 : List.filter
          (fun r => inRangeI f.total_value_min f.total_value_max r.total)
          (filter_data f t) = filter_data f t :=
        List.filter_eq_self.mpr (fun r hr => (hranges r hr).1)
      have h2 : List.filter
          (fun r => inRangeI f.net_weight_min f.net_weight_max r.kilo_neto)
          (filter_data f t) = filter_data f t :=
        List.filter_eq_self.mpr (fun r hr => (hranges r hr).2.1)
      have h3 : List.filter
          (fun r => inRangeI f.gross_weight_min f.gross_weight_max r.kilo_bruto)
          (filter_data f t) = filter_data f t :=
        List.filter_eq_self.mpr (fun r hr => (hranges r hr).2.2.1)
      have h4 : List.filter
          (fun r => inRangeI f.merchandise_count_min f.merchandise_count_max
            r.mercaderias_distintas)
          (filter_data f t) = filter_data f t :=
        List.filter_eq_self.mpr (fun r hr => (hranges r hr).2.2.2)
      unfold step_ranges
      rw [h1, h2, h3, h4]
    show step_ranges f (step_ptype f (step_top f (step_office f (filter_data f t)))) =
      filter_data f t
    rw [hoff2, htop, hpt2, hrg2]
/-- Four rows over two offices: office "A" has totals 100 and 90, office
"B" has totals 200 and 50.  Used by the C2 counterexample. -/
def c2t : List Row :=
  [⟨"A", some 1, some 1, some 100, some 1, none⟩,
   ⟨"A", some 1, some 1, some 90, some 1, none⟩,
   ⟨"B", some 1, some 1, some 200, some 1, none⟩,
   ⟨"B", some 1, some 1, some 50, some 1, none⟩]

/-- Top-2 cutoff with a total-value range capped at 150: the first pass
keeps offices {A, B} (rows with totals 200 and 100 are the two largest)
and then the range filter removes the 200 row; the second pass recomputes
the top-2 rows over what is left (100 and 90, both office A) and so drops
office B's remaining row. -/
def c2f : Filters := ⟨["all"], some 2, ["all"], 0, 150, 0, 10, 0, 10, 0, 10⟩

/-- Counterexample to C2 as stated: `filter_data` is not idempotent — with
an active top-N cutoff, re-applying the same parameters to the output
drops a further row. -/
theorem filter_not_idempotent_counterexample :
    filter_data c2f (filter_data c2f c2t) ≠ filter_data c2f c2t := by decide

/-- Filter parameters with the top-N cutoff at the "all" sentinel, used by
the C2 witness. -/
def c2fAll : Filters := ⟨["all"], none, ["all"], 0, 150, 0, 10, 0, 10, 0, 10⟩

/-- Witness for the amended C2: at concrete inputs with top-N = "all", the
output is a sublist of the input and re-filtering is the identity. -/
theorem filter_subset_and_idem_witness :
    ((filter_data c2fAll c2t).map stripPT).Sublist (c2t.map stripPT) ∧
    filter_data c2fAll (filter_data c2fAll c2t) = filter_data c2fAll c2t :=
  ⟨(filter_subset_and_idem c2fAll c2t).1, (filter_subset_and_idem c2fAll c2t).2 rfl⟩

/-- C10.  The filter changes the schema with the port-type selection:
when the selection is active (non-empty, without the "all" sentinel)
every returned row carries the derived `port_type` column holding its
office's classification; when it is inactive the rows are returned
exactly as they are in the input (a sublist of the input, all columns
untouched).  The input list itself is never modified: the source copies
the frame (`df.copy()`) before mutating, and the embedding is pure. -/
theorem filter_port_type_column (f : Filters) (t : List Row) :
    (ptypeActive f = true →
      ∀ r ∈ filter_data f t, r.port_type = some (classify_port_type r.aduana)) ∧
    (ptypeActive f = false → (filter_data f t).Sublist t) := by
  constructor
  · intro ha r hr
    have h3 : r ∈ step_ptype f (step_top f (step_office f t)) := (mem_step_ranges.1 hr).1
    rcases mem_step_ptype_active ha h3 with ⟨r', -, rfl, -⟩
    rfl
  · intro ha
    have he : filter_data f t = step_ranges f (step_top f (step_office f t)) := by
      unfold filter_data
      rw [step_ptype_inactive ha]
    rw [he]
    exact (sublist_step_ranges _ _).trans
      ((sublist_step_top _ _).trans (sublist_step_office _ _))

/-- A one-row table whose office classifies as a seaport, and parameters
selecting only seaports: used by the C10 witness. -/
def c10t : List Row := [⟨"PUERTO SEGURO", some 1, some 1, some 1, some 1, none⟩]

/-- Port-type selection {Seaport}, everything else wide open. -/
def c10f : Filters := ⟨["all"], none, ["Seaport"], 0, 10, 0, 10, 0, 10, 0, 10⟩

/-- Witness for C10: with the port-type filter active each output row
carries its classification; with it inactive the output is a sublist of
the input. -/
theorem filter_port_type_column_witness :
    (∀ r ∈ filter_data c10f c10t, r.port_type = some (classify_port_type r.aduana)) ∧
    (filter_data c2fAll c10t).Sublist c10t :=
  ⟨(filter_port_type_column c10f c10t).1 (by decide),
   (filter_port_type_column c2fAll c10t).2 (by decide)⟩

/-- Sum of a numeric column over one office's rows: pandas
`groupby('ADUANA').agg('sum')` on that column sums the non-null values
(`skipna`), which is the sum of the values with nulls read as 0. -/
def officeSum (proj : Row → Option Int) (t : List Row) (o : String) : Int :=
  ((t.filter (fun r => r.aduana == o)).map (fun r => (proj r).getD 0)).sum

/-- The distinct office names of a table, in first-occurrence order.
(pandas `groupby` emits keys in sorted order, but every consumer below
re-sorts by a numeric column with an unstable sort, so the key order is
not observable in any verified property.) -/
def offices (t : List Row) : List String := (t.map (·.aduana)).dedup

/-- Descending order on per-office summed total value. -/
def officeTotalDesc (t : List Row) (a b : String) : Prop :=
  officeSum Row.total t b ≤ officeSum Row.total t a

instance (t : List Row) : DecidableRel (officeTotalDesc t) := fun a b =>
  inferInstanceAs (Decidable (officeSum Row.total t b ≤ officeSum Row.total t a))

/-- Modelled from the spec's words for the C1 comparison: "compute total
value per office over the currently filtered rows, take the N offices
with greatest total". -/
def specTopOfficesBySum (n : Nat) (t : List Row) : List String :=
  (List.insertionSort (officeTotalDesc t) (offices t)).take n

/-- Three rows: office "A" totals 60 and 60 (summed 120), office "B"
total 100.  The top office by summed total is A, but the single largest
row belongs to B. -/
def c1t : List Row :=
  [⟨"A", some 1, some 1, some 60, some 1, none⟩,
   ⟨"A", some 1, some 1, some 60, some 1, none⟩,
   ⟨"B", some 1, some 1, some 100, some 1, none⟩]

/-- Top-1 cutoff, everything else wide open. -/
def c1f : Filters := ⟨["all"], some 1, ["all"], 0, 1000, 0, 10, 0, 10, 0, 10⟩

/-- Office "B"'s row. -/
def c1rowB : Row := ⟨"B", some 1, some 1, some 100, some 1, none⟩

/-- Counterexample to C1 as stated: the filter's output contains a row of
office "B", which is not among the 1 offices with greatest summed total
value ("A", with 120 over "B"'s 100) — because the source's top-N step
ranks individual rows (`df.nlargest(top_n, "total")`), not per-office
sums. -/
theorem top_filter_not_by_office_sum_counterexample :
    c1rowB ∈ filter_data c1f c1t ∧ c1rowB.aduana ∉ specTopOfficesBySum 1 c1t := by
  decide

/-- C1 (amended).  When the top-N cutoff is `n`, every row of the output
belongs to one of the offices of the `n` rows with greatest row-level
total value over the rows remaining after the office-membership step
(null totals excluded from selection, ties keeping earlier rows); at most
`n` such offices exist. -/
theorem filter_top_rows_selection (f : Filters) (t : List Row) (n : Nat)
    (hn : f.top_ports_filter = some n) :
    ∀ r ∈ filter_data f t, r.aduana ∈ topPortNames n (step_office f t) := by
  intro r hr
  have h3 : r ∈ step_ptype f (step_top f (step_office f t)) := (mem_step_ranges.1 hr).1
  have htop : step_top f (step_office f t) =
      (step_office f t).filter
        (fun r => (topPortNames n (step_office f t)).contains r.aduana) := by
    simp [step_top, hn]
  by_cases ha : ptypeActive f = true
  · rcases mem_step_ptype_active ha h3 with ⟨r', hr', rfl, -⟩
    rw [htop] at hr'
    have := (List.mem_filter.1 hr').2
    simpa [addPT] using this
  · have ha' : ptypeActive f = false := by simpa using ha
    rw [step_ptype_inactive ha', htop] at h3
    have := (List.mem_filter.1 h3).2
    simpa using this

/-- Witness for the amended C1: on the concrete table the surviving row's
office is among the offices of the top-1 rows. -/
theorem filter_top_rows_selection_witness :
    c1f.top_ports_filter = some 1 ∧ c1rowB ∈ filter_data c1f c1t ∧
    c1rowB.aduana ∈ topPortNames 1 (step_office c1f c1t) :=
  ⟨rfl, by decide, filter_top_rows_selection c1f c1t 1 rfl c1rowB (by decide)⟩

/-- One parsed row of the input file before the all-null row drop: every
column, the office name included, may be null. -/
structure RawRow where
  aduana : Option String
  kilo_neto : Option Int
  kilo_bruto : Option Int
  total : Option Int
  mercaderias_distintas : Option Int
  deriving DecidableEq, Repr

/-- A parsed row is entirely null when every column is null. -/
def RawRow.allNull (r : RawRow) : Bool :=
  r.aduana.isNone && r.kilo_neto.isNone && r.kilo_bruto.isNone &&
  r.total.isNone && r.mercaderias_distintas.isNone

/-- src/app.py lines 10-45 (`get_data`): the filesystem is a finite map
from path to parsed table.  `pd.read_parquet` / `pd.read_csv` raise on an
absent file and `get_data` has no exception handling, so an absent path
is an error; on success the rows that are null in every column are
dropped (`df.dropna(how='all')`).  The fixed schema coercion is carried
by the `RawRow` type itself; the memoization cache only affects timing. -/
def get_data (fs : List (String × List RawRow)) (data_path : String) :
    Except String (List RawRow) :=
  match fs.lookup data_path with
  | none => Except.error ("FileNotFoundError: " ++ data_path)
  | some rows => Except.ok (rows.filter (fun r => !r.allNull))

/-- Counterexample to C4 as stated: on an absent path `get_data`
propagates the missing-file error instead of returning an empty,
correctly-typed table. -/
theorem load_absent_raises_counterexample :
    get_data [] "data/data.parquet" =
      Except.error ("FileNotFoundError: " ++ "data/data.parquet") ∧
    get_data [] "data/data.parquet" ≠ Except.ok ([] : List RawRow) := by
  constructor
  · rfl
  · intro h
    simp [get_data] at h

/-- C4 (amended).  For every filesystem and every path naming an absent
input file, `get_data` raises the underlying missing-file error; there is
no fallback to an empty table. -/
theorem get_data_absent_raises (fs : List (String × List RawRow)) (p : String)
    (h : fs.lookup p = none) :
    get_data fs p = Except.error ("FileNotFoundError: " ++ p) := by
  simp [get_data, h]

/-- Witness for the amended C4: the empty filesystem has no entry for the
default data path, and loading it errors. -/
theorem get_data_absent_raises_witness :
    ([] : List (String × List RawRow)).lookup "data/data.parquet" = none ∧
    get_data [] "data/data.parquet" =
      Except.error ("FileNotFoundError: " ++ "data/data.parquet") :=
  ⟨rfl, get_data_absent_raises [] "data/data.parquet" rfl⟩

/-- One aggregated row of the ranking table: per-office sums of the four
numeric columns plus the three dense-rank columns. -/
structure AggRow where
  aduana : String
  total : Int
  kilo_neto : Int
  kilo_bruto : Int
  mercaderias_distintas : Int
  total_rank : Nat
  weight_rank : Nat
  diversity_rank : Nat
  deriving DecidableEq, Repr

/-- pandas `rank(method='dense', ascending=False).astype(int)`: one plus
the number of distinct values strictly greater, so ties share a rank and
rank 1 is the highest value. -/
def denseRankDesc (vals : List Int) (v : Int) : Nat :=
  (vals.dedup.filter (fun w => decide (v < w))).length + 1

/-- Descending order on aggregated total value. -/
def aggTotalDesc (a b : AggRow) : Prop := b.total ≤ a.total

instance : DecidableRel aggTotalDesc := fun a b =>
  inferInstanceAs (Decidable (b.total ≤ a.total))

instance : IsTotal AggRow aggTotalDesc := ⟨fun a b => le_total b.total a.total⟩

instance : IsTrans AggRow aggTotalDesc := ⟨fun _ _ _ h1 h2 => le_trans h2 h1⟩

/-- One office's row of the ranking table: the four per-office sums of
src/app.py lines 978-983 and the three dense-rank columns of lines
986-988, each rank taken against the full per-office column. -/
def aggRowOf (t : List Row) (o : String) : AggRow :=
  { aduana := o
    total := officeSum Row.total t o
    kilo_neto := officeSum Row.kilo_neto t o
    kilo_bruto := officeSum Row.kilo_bruto t o
    mercaderias_distintas := officeSum Row.mercaderias_distintas t o
    total_rank := denseRankDesc ((offices t).map (officeSum Row.total t))
      (officeSum Row.total t o)
    weight_rank := denseRankDesc ((offices t).map (officeSum Row.kilo_neto t))
      (officeSum Row.kilo_neto t o)
    diversity_rank :=
      denseRankDesc ((offices t).map (officeSum Row.mercaderias_distintas t))
        (officeSum Row.mercaderias_distintas t o) }

/-- src/app.py lines 978-991: group by office, sum the four numeric
columns, attach the three dense-rank columns (1 = highest, computed
independently per metric), and sort by summed total value descending.
pandas `sort_values` uses an unstable quicksort, so the order among equal
totals is unspecified; the embedding's stable insertion sort realizes one
admissible order. -/
def port_rankings (t : List Row) : List AggRow :=
  List.insertionSort aggTotalDesc ((offices t).map (aggRowOf t))

/-- src/app.py lines 964-991 (`_update_logic` of the data table): empty
check, then the row cap `df.head(10_000)` applied to the *filtered
records*, then the ranking aggregation.  The emitted column definitions
are static UI metadata and are not modelled. -/
def dataTableUpdate (t : List Row) : List AggRow :=
  if t.length = 0 then [] else port_rankings (t.take 10000)

/-- The office names of the ranking rows are a permutation of the distinct
offices of the aggregated table. -/
theorem port_rankings_names (t : List Row) :
    ((port_rankings t).map (·.aduana)).Perm (offices t) := by
  unfold port_rankings
  have hp := (List.perm_insertionSort aggTotalDesc
    ((offices t).map (aggRowOf t))).map (fun x : AggRow => x.aduana)
  have h2 : List.map ((fun x : AggRow => x.aduana) ∘ aggRowOf t) (offices t) = offices t :=
    map_id_of_mem (fun a _ => rfl)
  rw [List.map_map, h2] at hp
  exact hp

/-- Row with office "A" used by the C3 counterexample. -/
def c3rowA : Row := ⟨"A", some 1, some 1, some 1, some 1, none⟩

/-- Row with office "B" used by the C3 counterexample. -/
def c3rowB : Row := ⟨"B", some 1, some 1, some 1, some 1, none⟩

/-- A filtered table of 10,001 rows: 10,000 rows of office "A" followed by
one row of office "B". -/
def c3t : List Row := List.replicate 10000 c3rowA ++ [c3rowB]

/-- Replicated lists deduplicate to a singleton. -/
theorem dedup_replicate_singleton {α : Type} [DecidableEq α] (a : α) :
    ∀ n : Nat, 0 < n → (List.replicate n a).dedup = [a] := by
  intro n
  induction n with
  | zero => intro h; exact absurd h (by decide)
  | succ m ih =>
    intro _
    rcases Nat.eq_zero_or_pos m with hm | hm
    · subst hm; rfl
    · rw [List.replicate_succ,
        List.dedup_cons_of_mem (List.mem_replicate.2 ⟨Nat.pos_iff_ne_zero.1 hm, rfl⟩)]
      exact ih hm

/-- Counterexample to C3 as stated: office "B" is present in the filtered
table but produces no row in the ranking output, because the source
truncates the filtered records to 10,000 rows *before* aggregating
(`df.head(10_000)` precedes the group-by), not the aggregated output. -/
theorem ranking_misses_office_counterexample :
    "B" ∈ offices c3t ∧ "B" ∉ (dataTableUpdate c3t).map (·.aduana) := by
  have htake : c3t.take 10000 = List.replicate 10000 c3rowA := by
    unfold c3t
    exact List.take_left' (by rw [List.length_replicate])
  constructor
  · unfold offices c3t
    rw [List.mem_dedup, List.map_append, List.map_replicate]
    exact List.mem_append_right _ (by simp [c3rowB])
  · intro hmem
    have hlen : c3t.length = 10001 := by
      unfold c3t
      rw [List.length_append, List.length_replicate]
      rfl
    have hne : c3t.length ≠ 0 := by
      rw [hlen]
      norm_num
    have hdt : dataTableUpdate c3t = port_rankings (c3t.take 10000) := by
      unfold dataTableUpdate
      rw [if_neg hne]
    rw [hdt, htake] at hmem
    have hperm := port_rankings_names (List.replicate 10000 c3rowA)
    have hoff : offices (List.replicate 10000 c3rowA) = ["A"] := by
      unfold offices
      rw [List.map_replicate]
      exact dedup_replicate_singleton _ 10000 (by norm_num)
    have : "B" ∈ offices (List.replicate 10000 c3rowA) := hperm.mem_iff.1 hmem
    rw [hoff] at this
    simp at this

/-- The ranking table has one row per group key. -/
theorem port_rankings_length (u : List Row) :
    (port_rankings u).length = (offices u).length := by
  unfold port_rankings
  rw [(List.perm_insertionSort aggTotalDesc _).length_eq, List.length_map]

/-- C3 (amended).  The ranking table always has at most 10,000 rows (its
row count is the number of distinct offices among the first 10,000
filtered records).  When the filtered table has at most 10,000 rows (so
the source's pre-aggregation row cap is a no-op), it additionally has
exactly one row per distinct office present after filtering, its numeric
columns are the per-office sums over all filtered records, the three
dense ranks (1 = highest, ties shared) are computed independently for
total value, net weight and merchandise count, and the result is sorted
by total value descending. -/
theorem data_table_ranking (t : List Row) :
    (dataTableUpdate t).length ≤ 10000 ∧
    (t.length ≤ 10000 →
      ((dataTableUpdate t).map (·.aduana)).Perm (offices t) ∧
      (∀ a ∈ dataTableUpdate t,
        a.total = officeSum Row.total t a.aduana ∧
        a.kilo_neto = officeSum Row.kilo_neto t a.aduana ∧
        a.kilo_bruto = officeSum Row.kilo_bruto t a.aduana ∧
        a.mercaderias_distintas = officeSum Row.mercaderias_distintas t a.aduana ∧
        a.total_rank = denseRankDesc ((offices t).map (officeSum Row.total t)) a.total ∧
        a.weight_rank =
          denseRankDesc ((offices t).map (officeSum Row.kilo_neto t)) a.kilo_neto ∧
        a.diversity_rank =
          denseRankDesc ((offices t).map (officeSum Row.mercaderias_distintas t))
            a.mercaderias_distintas) ∧
      (dataTableUpdate t).Pairwise aggTotalDesc) := by
  constructor
  · unfold dataTableUpdate
    split
    · simp
    · rw [port_rankings_length]
      calc (offices (t.take 10000)).length
          ≤ ((t.take 10000).map (·.aduana)).length := (List.dedup_sublist _).length_le
        _ = (t.take 10000).length := List.length_map _ _
        _ ≤ 10000 := by
            rw [List.length_take]
            exact min_le_left _ _
  · intro h
    have hdt : dataTableUpdate t = port_rankings t := by
      unfold dataTableUpdate
      split
      case isTrue h0 =>
        have ht : t = [] := List.length_eq_zero.1 h0
        subst ht
        simp [port_rankings, offices]
      case isFalse => rw [List.take_of_length_le h]
    refine ⟨?_, ?_, ?_⟩
    · rw [hdt]
      exact port_rankings_names t
    · intro a ha
      rw [hdt] at ha
      unfold port_rankings at ha
      have := (List.perm_insertionSort aggTotalDesc _).mem_iff.1 ha
      rcases List.mem_map.1 this with ⟨o, -, rfl⟩
      exact ⟨rfl, rfl, rfl, rfl, rfl, rfl, rfl⟩
    · rw [hdt]
      exact List.sorted_insertionSort aggTotalDesc _

/-- The spec §8 scenario table: two offices, A(total 100, net 10,
gross 20, merch 5) and B(total 200, net 30, gross 30, merch 3). -/
def c3wt : List Row :=
  [⟨"A", some 10, some 20, some 100, some 5, none⟩,
   ⟨"B", some 30, some 30, some 200, some 3, none⟩]

/-- Witness for the amended C3: the unconditional cap at the scenario
table, plus — the two-row table being under the cap — the conditional
conclusions discharged there. -/
theorem data_table_ranking_witness :
    (dataTableUpdate c3wt).length ≤ 10000 ∧
    c3wt.length ≤ 10000 ∧
    (((dataTableUpdate c3wt).map (·.aduana)).Perm (offices c3wt) ∧
     (∀ a ∈ dataTableUpdate c3wt,
       a.total = officeSum Row.total c3wt a.aduana ∧
       a.kilo_neto = officeSum Row.kilo_neto c3wt a.aduana ∧
       a.kilo_bruto = officeSum Row.kilo_bruto c3wt a.aduana ∧
       a.mercaderias_distintas = officeSum Row.mercaderias_distintas c3wt a.aduana ∧
       a.total_rank = denseRankDesc ((offices c3wt).map (officeSum Row.total c3wt)) a.total ∧
       a.weight_rank =
         denseRankDesc ((offices c3wt).map (officeSum Row.kilo_neto c3wt)) a.kilo_neto ∧
       a.diversity_rank =
         denseRankDesc ((offices c3wt).map (officeSum Row.mercaderias_distintas c3wt))
           a.mercaderias_distintas) ∧
     (dataTableUpdate c3wt).Pairwise aggTotalDesc) :=
  ⟨(data_table_ranking c3wt).1, by decide, (data_table_ranking c3wt).2 (by decide)⟩

/-- C7.  The classifier is total and deterministic: it agrees everywhere
with the spec's ordered keyword-group scan (airport group first, then
seaport, then free-zone, with land-border as default), and every string
maps to exactly one of the four categories. -/
theorem classify_total_first_match (s : String) :
    classify_port_type s = specClassify s ∧
    (classify_port_type s = "Airport" ∨ classify_port_type s = "Seaport" ∨
     classify_port_type s = "Free Zone" ∨ classify_port_type s = "Land Border") := by
  constructor
  · simp only [classify_port_type, specClassify, keywordGroups, firstMatch,
      List.any_cons, List.any_nil, Bool.or_false, Bool.or_assoc]
  · simp only [classify_port_type]
    split
    · exact Or.inl rfl
    · split
      · exact Or.inr (Or.inl rfl)
      · split
        · exact Or.inr (Or.inr (Or.inl rfl))
        · exact Or.inr (Or.inr (Or.inr rfl))

/-- pandas `Series.max` (`skipna` has already been applied by the caller
on the non-null values). -/
def listMax {α : Type} [LinearOrder α] : List α → Option α
  | [] => none
  | a :: as => some (match listMax as with
    | none => a
    | some m => max a m)

/-- pandas `Series.min` on non-null values. -/
def listMin {α : Type} [LinearOrder α] : List α → Option α
  | [] => none
  | a :: as => some (match listMin as with
    | none => a
    | some m => min a m)

theorem listMax_eq_none {α : Type} [LinearOrder α] {l : List α} :
    listMax l = none ↔ l = [] := by
  cases l with
  | nil => simp [listMax]
  | cons a as => simp [listMax]

theorem listMin_eq_none {α : Type} [LinearOrder α] {l : List α} :
    listMin l = none ↔ l = [] := by
  cases l with
  | nil => simp [listMin]
  | cons a as => simp [listMin]

theorem listMax_le {α : Type} [LinearOrder α] :
    ∀ {l : List α} {m x : α}, listMax l = some m → x ∈ l → x ≤ m := by
  intro l
  induction l with
  | nil => intro m x _ hx; cases hx
  | cons a as ih =>
    intro m x hm hx
    rw [listMax] at hm
    injection hm with hm
    rcases List.mem_cons.1 hx with rfl | hx'
    · cases hmax : listMax as with
      | none => rw [hmax] at hm; subst hm; exact le_refl x
      | some mm => rw [hmax] at hm; subst hm; exact le_max_left x mm
    · cases hmax : listMax as with
      | none =>
        rcases listMax_eq_none.1 hmax with rfl
        cases hx'
      | some mm =>
        rw [hmax] at hm
        subst hm
        exact le_trans (ih hmax hx') (le_max_right a mm)

theorem listMin_le {α : Type} [LinearOrder α] :
    ∀ {l : List α} {m x : α}, listMin l = some m → x ∈ l → m ≤ x := by
  intro l
  induction l with
  | nil => intro m x _ hx; cases hx
  | cons a as ih =>
    intro m x hm hx
    rw [listMin] at hm
    injection hm with hm
    rcases List.mem_cons.1 hx with rfl | hx'
    · cases hmin : listMin as with
      | none => rw [hmin] at hm; subst hm; exact le_refl x
      | some mm => rw [hmin] at hm; subst hm; exact min_le_left x mm
    · cases hmin : listMin as with
      | none =>
        rcases listMin_eq_none.1 hmin with rfl
        cases hx'
      | some mm =>
        rw [hmin] at hm
        subst hm
        exact le_trans (min_le_right a mm) (ih hmin hx')

theorem listMax_mem {α : Type} [LinearOrder α] :
    ∀ {l : List α} {m : α}, listMax l = some m → m ∈ l := by
  intro l
  induction l with
  | nil => intro m hm; cases hm
  | cons a as ih =>
    intro m hm
    rw [listMax] at hm
    injection hm with hm
    cases hmax : listMax as with
    | none => rw [hmax] at hm; subst hm; exact List.mem_cons_self a as
    | some mm =>
      rw [hmax] at hm
      subst hm
      show a ⊔ mm ∈ a :: as
      rcases max_choice a mm with hc | hc
      · rw [hc]; exact List.mem_cons_self a as
      · rw [hc]; exact List.mem_cons_of_mem a (ih hmax)

theorem listMin_mem {α : Type} [LinearOrder α] :
    ∀ {l : List α} {m : α}, listMin l = some m → m ∈ l := by
  intro l
  induction l with
  | nil => intro m hm; cases hm
  | cons a as ih =>
    intro m hm
    rw [listMin] at hm
    injection hm with hm
    cases hmin : listMin as with
    | none => rw [hmin] at hm; subst hm; exact List.mem_cons_self a as
    | some mm =>
      rw [hmin] at hm
      subst hm
      show a ⊓ mm ∈ a :: as
      rcases min_choice a mm with hc | hc
      · rw [hc]; exact List.mem_cons_self a as
      · rw [hc]; exact List.mem_cons_of_mem a (ih hmin)

/-- The possible outputs of a chart component's `_update_logic`: one
constructor per designated "no data" figure (matching the distinct empty
figures of the source) plus the chart payload. -/
inductive FigOut (α : Type) where
  | noData
  | noValidData
  | noDataAfter
  | noPorts
  | noDataForPorts
  | noSignificant
  | chart (payload : α)
  deriving DecidableEq, Repr

/-- The output of the data-cards callback: the designated "No Data"
answer, the caught-exception answer ("Error" cards), or the five computed
metrics.  The number formatting of the metrics and the 20-character
truncation of the port name are presentation and are not modelled. -/
inductive CardsOut where
  | noData
  | errCards
  | metrics (total_ports : Nat) (total_weight_tons avg_weight_tons : ℚ)
      (top_port : String) (total_value : Int)
  deriving DecidableEq, Repr

/-- pandas `df["kilo_neto"].idxmax()` resolved through `df.loc[..]`: the
first row attaining the maximal non-null net weight; `none` when the
column is entirely null, in which case the source raises (caught by the
callback, which answers with the "Error" cards). -/
def idxmaxNeto (t : List Row) : Option Row :=
  t.foldl (fun acc r =>
    match r.kilo_neto with
    | none => acc
    | some v =>
      match acc with
      | none => some r
      | some b => if b.kilo_neto.getD 0 < v then some r else acc) none

/-- src/app.py lines 863-914 (data cards `update`): the "No Data" answer
on an empty filtered frame, otherwise the five metrics — row count, total
net weight in tons, average weight per row, office of the heaviest row,
summed total value. -/
def dataCardsUpdate (t : List Row) : CardsOut :=
  if t.length = 0 then .noData
  else
    match idxmaxNeto t with
    | none => .errCards
    | some top =>
      let total_ports := t.length
      let total_weight_tons : ℚ := ((t.map (fun r => r.kilo_neto.getD 0)).sum : ℚ) / 1000
      let avg : ℚ := if 0 < total_ports then total_weight_tons / (total_ports : ℚ) else 0
      .metrics total_ports total_weight_tons avg top.aduana
        ((t.map (fun r => r.total.getD 0)).sum)

/-- One bar of the top-N value ranking: office, summed total value, and
the emitted `total_billions` scale column (the source divides by 1e12). -/
structure BarRow where
  aduana : String
  total : Int
  deriving DecidableEq, Repr

/-- Ascending order on summed total value. -/
def barTotalAsc (a b : BarRow) : Prop := a.total ≤ b.total

/-- Descending order on summed total value. -/
def barTotalDesc (a b : BarRow) : Prop := b.total ≤ a.total

instance : DecidableRel barTotalAsc := fun a b =>
  inferInstanceAs (Decidable (a.total ≤ b.total))

instance : DecidableRel barTotalDesc := fun a b =>
  inferInstanceAs (Decidable (b.total ≤ a.total))

instance : IsTotal BarRow barTotalAsc := ⟨fun a b => le_total a.total b.total⟩

instance : IsTotal BarRow barTotalDesc := ⟨fun a b => le_total b.total a.total⟩

instance : IsTrans BarRow barTotalAsc := ⟨fun _ _ _ h1 h2 => le_trans h1 h2⟩

instance : IsTrans BarRow barTotalDesc := ⟨fun _ _ _ h1 h2 => le_trans h2 h1⟩

/-- src/app.py line 1234: `df.groupby('ADUANA')['total'].sum()` — one bar
per office with its summed total value. -/
def barRows (t : List Row) : List BarRow :=
  (offices t).map (fun o => { aduana := o, total := officeSum Row.total t o })

/-- src/app.py lines 1208-1271 (`_update_logic` of the top-N bar ranking):
empty check; group-by-office total sums; sort in the user's requested
order; take the first `top_n`; then re-sort — ascending when the request
was "desc", descending otherwise — before emitting (so a horizontal bar
chart renders largest at top); finally attach the /1e12 scale column.
pandas `sort_values` is unstable, so order among equal totals is
unspecified; the stable insertion sort realizes one admissible order. -/
def barLogic (t : List Row) (top_n : Nat) (sort_order : String) :
    FigOut (List (String × Int × ℚ)) :=
  if t.length = 0 then .noData
  else
    let sorted1 := if sort_order == "asc" then List.insertionSort barTotalAsc (barRows t)
      else List.insertionSort barTotalDesc (barRows t)
    let sel := sorted1.take top_n
    let final := if sort_order == "desc" then List.insertionSort barTotalAsc sel
      else List.insertionSort barTotalDesc sel
    .chart (final.map (fun b => (b.aduana, b.total, (b.total : ℚ) / 1000000000000)))

/-- One point of the volume-vs-value scatter: office, chosen weight,
total value, merchandise count, and the normalized point size.  A zero
merchandise-count range makes the pandas size expression 0/0 = NaN,
modelled as `none`. -/
structure ScatterPoint where
  aduana : String
  weight : Int
  total : Int
  mercaderias : Int
  size : Option ℚ
  deriving DecidableEq, Repr

/-- src/app.py lines 1422-1516 (`_update_logic` of the scatter): empty
check; drop rows null in total, the chosen weight column, or merchandise
count; second empty check; point sizes by linear min-max normalization of
merchandise count into [5·k, 50·k] pixels for the user's size factor k.
The source selects the weight column by name; only "kilo_neto" and
"kilo_bruto" occur, and any other value is read as the default
"kilo_neto". -/
def scatterLogic (t : List Row) (weight_type : String) (size_factor : ℚ) :
    FigOut (List ScatterPoint) :=
  if t.length = 0 then .noData
  else
    let wcol : Row → Option Int :=
      fun r => if weight_type == "kilo_bruto" then r.kilo_bruto else r.kilo_neto
    let clean := t.filter (fun r =>
      r.total.isSome && (wcol r).isSome && r.mercaderias_distintas.isSome)
    if clean.length = 0 then .noValidData
    else
      let base := clean.map (fun r => r.mercaderias_distintas.getD 0)
      let min_size : ℚ := 5 * size_factor
      let max_size : ℚ := 50 * size_factor
      .chart (clean.map (fun r =>
        { aduana := r.aduana
          weight := (wcol r).getD 0
          total := r.total.getD 0
          mercaderias := r.mercaderias_distintas.getD 0
          size :=
            match listMax base, listMin base with
            | some bmax, some bmin =>
              if bmax = bmin then none
              else some (min_size + (max_size - min_size) *
                ((r.mercaderias_distintas.getD 0 : ℚ) - (bmin : ℚ)) /
                ((bmax : ℚ) - (bmin : ℚ)))
            | _, _ => none }))

/-- src/app.py lines 1697-1703: the diversity chart's metric column,
selected by name among the three offered options (the source's kwargs
default is merchandise count). -/
def metricOf (sort_metric : String) (r : Row) : Option Int :=
  if sort_metric == "total" then r.total
  else if sort_metric == "kilo_neto" then r.kilo_neto
  else r.mercaderias_distintas

/-- pandas `sort_values(by=metric, ascending=False)`: descending on the
metric, null values last. -/
def metricDescB (key : Row → Option Int) (a b : Row) : Bool :=
  match key a, key b with
  | _, none => true
  | none, some _ => false
  | some x, some y => decide (y ≤ x)

/-- src/app.py lines 1682-1773 (`_update_logic` of the diversity ranking):
empty check; optional min/max merchandise-count bounds as an additional
filter layer (null counts compare False and are dropped when a bound is
given); second empty check with its own "no data after filtering" figure;
sort descending by the chosen metric and emit (office, metric) bars. -/
def diversityLogic (t : List Row) (sort_metric : String) (minM maxM : Option Int) :
    FigOut (List (String × Option Int)) :=
  if t.length = 0 then .noData
  else
    let t1 := match minM with
      | none => t
      | some lo => t.filter (fun r =>
          match r.mercaderias_distintas with
          | none => false
          | some v => decide (lo ≤ v))
    let t2 := match maxM with
      | none => t1
      | some hi => t1.filter (fun r =>
          match r.mercaderias_distintas with
          | none => false
          | some v => decide (v ≤ hi))
    if t2.length = 0 then .noDataAfter
    else
      .chart ((List.insertionSort
        (fun a b => metricDescB (metricOf sort_metric) a b = true) t2).map
        (fun r => (r.aduana, metricOf sort_metric r)))

/-- One tile of the treemap: per-office sums plus the two display scale
columns (weight in millions, total in the source's "billions" column,
which divides by 1e12). -/
structure TreeRow where
  aduana : String
  kilo_neto : Int
  kilo_bruto : Int
  total : Int
  mercaderias_distintas : Int
  weight_millions : ℚ
  total_billions : ℚ
  deriving DecidableEq, Repr

/-- pandas `Series.quantile(0.05)` with the default linear interpolation:
with sorted values v₀ ≤ … ≤ vₙ₋₁ and h = (n-1)/20, the result is
v⌊h⌋ + (h - ⌊h⌋)·(v⌊h⌋₊₁ - v⌊h⌋). -/
def quantileLinear05 (l : List ℚ) : ℚ :=
  let s := List.insertionSort (fun a b : ℚ => a ≤ b) l
  match s with
  | [] => 0
  | _ :: _ =>
    let h : ℚ := ((s.length - 1 : ℕ) : ℚ) / 20
    let i : ℕ := (⌊h⌋).toNat
    let lo := s.getD i 0
    let hi := s.getD (i + 1) lo
    lo + (h - (i : ℚ)) * (hi - lo)

/-- src/app.py lines 1893-1975 (`_update_logic` of the treemap): empty
check; group-by-office sums of the four numeric columns; scale columns;
drop offices below the 5th-percentile weight threshold; a second check
with its own "no significant data" figure; sort by weight descending. -/
def treemapLogic (t : List Row) (weight_type : String) : FigOut (List TreeRow) :=
  if t.length = 0 then .noData
  else
    let rows := (offices t).map (fun o =>
      let neto := officeSum Row.kilo_neto t o
      let bruto := officeSum Row.kilo_bruto t o
      let tot := officeSum Row.total t o
      let w := if weight_type == "kilo_bruto" then bruto else neto
      ({ aduana := o, kilo_neto := neto, kilo_bruto := bruto, total := tot
         mercaderias_distintas := officeSum Row.mercaderias_distintas t o
         weight_millions := (w : ℚ) / 1000000
         total_billions := (tot : ℚ) / 1000000000000 } : TreeRow))
    let thr := quantileLinear05 (rows.map (·.weight_millions))
    let kept := rows.filter (fun r => decide (thr ≤ r.weight_millions))
    if kept.length = 0 then .noSignificant
    else .chart (List.insertionSort
      (fun a b : TreeRow => b.weight_millions ≤ a.weight_millions) kept)

/-- The five radar metrics, in the source's order
`['total', 'kilo_neto', 'mercaderias_distintas', 'weight_efficiency',
'value_per_kg']`. -/
inductive RMetric where
  | total
  | kiloNeto
  | mercaderias
  | weightEff
  | valuePerKg
  deriving DecidableEq, Repr

/-- The radar metric list in source order. -/
def rmetrics : List RMetric :=
  [.total, .kiloNeto, .mercaderias, .weightEff, .valuePerKg]

/-- The position of a radar metric in the emitted value series. -/
def ridx : RMetric → Nat
  | .total => 0
  | .kiloNeto => 1
  | .mercaderias => 2
  | .weightEff => 3
  | .valuePerKg => 4

/-- src/app.py line 2141: the filtered frame restricted to the selected
ports. -/
def selRows (t : List Row) (sel : List String) : List Row :=
  t.filter (fun r => sel.contains r.aduana)

/-- The group keys of the radar's per-port aggregation. -/
def radarGroups (t : List Row) (sel : List String) : List String :=
  offices (selRows t sel)

/-- A float-classified radar cell: the source's metric columns are
float64, and the two derived ratios can produce the non-finite classes —
x/0 is +inf for x > 0, -inf for x < 0, and NaN for x = 0.  Only these
classes occur in the radar pipeline, so a cell is NaN, one of the two
infinities, or a finite rational. -/
inductive FVal where
  | nan
  | inf
  | ninf
  | fin (x : ℚ)
  deriving DecidableEq, Repr

/-- IEEE float division for the radar's derived ratios: finite for a
nonzero divisor; on a zero divisor, ±inf by the numerator's sign and NaN
for 0/0. -/
def fdiv (a b : ℚ) : FVal :=
  if b = 0 then (if a = 0 then .nan else if 0 < a then .inf else .ninf)
  else .fin (a / b)

/-- Order-embed the non-NaN float classes into `WithBot (WithTop ℚ)`
(⊥ is -inf, ⊤ is +inf): pandas `Series.max`/`min` on the float64
column skip NaN but do include the infinities in the comparison. -/
def toExt : FVal → Option (WithBot (WithTop ℚ))
  | .nan => none
  | .ninf => some ⊥
  | .inf => some ⊤
  | .fin x => some ((x : WithTop ℚ) : WithBot (WithTop ℚ))

/-- src/app.py lines 2156-2170: one cell of the radar metric table — the
three per-port sums (always finite), and the two derived ratios
weight_efficiency = kilo_neto/kilo_bruto and value_per_kg =
total/kilo_neto with the float zero-divisor semantics of `fdiv`. -/
def colVal (t : List Row) (sel : List String) (m : RMetric) (o : String) : FVal :=
  match m with
  | .total => .fin ((officeSum Row.total (selRows t sel) o : ℚ))
  | .kiloNeto => .fin ((officeSum Row.kilo_neto (selRows t sel) o : ℚ))
  | .mercaderias => .fin ((officeSum Row.mercaderias_distintas (selRows t sel) o : ℚ))
  | .weightEff =>
    fdiv (officeSum Row.kilo_neto (selRows t sel) o : ℚ)
      (officeSum Row.kilo_bruto (selRows t sel) o : ℚ)
  | .valuePerKg =>
    fdiv (officeSum Row.total (selRows t sel) o : ℚ)
      (officeSum Row.kilo_neto (selRows t sel) o : ℚ)

/-- The non-NaN values of one radar metric column across the selected
ports, order-embedded: the list over which the column's max and min are
taken. -/
def radarFins (t : List Row) (sel : List String) (m : RMetric) :
    List (WithBot (WithTop ℚ)) :=
  ((radarGroups t sel).map (colVal t sel m)).filterMap toExt

/-- The cell expression (x - mn)/(mx - mn) of src/app.py line 2179 under
float semantics, for the value shapes that reach it (the caller's branch
guarantees mn ≠ mx, and mn ≤ mx as the column's min and max):
- a NaN cell stays NaN;
- mn = -inf makes the divisor +inf and every numerator +inf or NaN, so
  every cell is NaN;
- mn finite with mx = +inf divides a finite difference (or ±inf) by
  +inf: finite cells give 0.0, the infinite cells inf/inf = NaN;
- mn and mx both finite divide by the positive finite range: finite
  cells are min-max normalized, ±inf cells stay ±inf.
The (mn, mx) shapes that cannot arise as the min and max of a nonempty
column fall to the NaN default. -/
def normCell (c : FVal) (mn mx : WithBot (WithTop ℚ)) : FVal :=
  match mn, mx with
  | some (some m), some (some M) =>
    match c with
    | .nan => .nan
    | .inf => .inf
    | .ninf => .ninf
    | .fin x => .fin ((x - m) / (M - m))
  | some (some _), some none =>
    match c with
    | .fin _ => .fin 0
    | _ => .nan
  | _, _ => .nan

/-- src/app.py lines 2174-2182: min-max normalization of one metric
column.  `max_val != min_val` is a float comparison: an all-NaN column
has NaN max and min, which compare unequal, so it takes the normalizing
branch and every cell stays NaN; equal (possibly infinite) max and min
take the scalar-1.0 branch, which assigns 1.0 to every port, NaN cells
included; otherwise each cell is (x - min)/(max - min) per `normCell`. -/
def normedVal (t : List Row) (sel : List String) (m : RMetric) (o : String) : FVal :=
  match listMax (radarFins t sel m), listMin (radarFins t sel m) with
  | some mx, some mn =>
    if mx = mn then .fin 1
    else normCell (colVal t sel m o) mn mx
  | _, _ => .nan

/-- src/app.py lines 2110-2230 (`_update_logic` of the radar): empty
check; "no ports selected" check; restrict to the selected ports with a
"no data for selected ports" check; aggregate per port; optionally
normalize each metric column independently; emit one trace per selected
port that has data, closing each polygon by repeating the first value. -/
def radarLogic (t : List Row) (sel : List String) (normalize : Bool) :
    FigOut (List (String × List FVal)) :=
  if t.length = 0 then .noData
  else if sel.isEmpty then .noPorts
  else if (selRows t sel).length = 0 then .noDataForPorts
  else
    .chart (sel.filterMap (fun p =>
      if (radarGroups t sel).contains p then
        some (p,
          rmetrics.map (fun m =>
            if normalize then normedVal t sel m p else colVal t sel m p) ++
          [if normalize then normedVal t sel .total p else colVal t sel .total p])
      else none))

/-- C5.  A filter-parameter tuple that yields zero rows makes every
aggregation component return its designated "no data" output: the five
"No Data" cards, the empty table, and each chart's "no data available"
figure.  Every empty check precedes the component's partial operations
(idxmax, quantile, division), so nothing can raise; in the embedding the
update functions are total and the designated output is reached by
computation. -/
theorem empty_filter_no_data (f : Filters) (t : List Row)
    (h : filter_data f t = [])
    (bn : Nat) (bso : String) (wt : String) (sf : ℚ) (sm : String)
    (ml mh : Option Int) (sel : List String) (nrm : Bool) :
    dataCardsUpdate (filter_data f t) = CardsOut.noData ∧
    dataTableUpdate (filter_data f t) = [] ∧
    barLogic (filter_data f t) bn bso = FigOut.noData ∧
    scatterLogic (filter_data f t) wt sf = FigOut.noData ∧
    diversityLogic (filter_data f t) sm ml mh = FigOut.noData ∧
    treemapLogic (filter_data f t) wt = FigOut.noData ∧
    radarLogic (filter_data f t) sel nrm = FigOut.noData := by
  rw [h]
  exact ⟨rfl, rfl, rfl, rfl, rfl, rfl, rfl⟩

/-- A one-row table whose office is not in the selection below. -/
def c5t : List Row := [⟨"X", some 1, some 1, some 1, some 1, none⟩]

/-- Parameters selecting only office "Y", which filters `c5t` to zero
rows. -/
def c5f : Filters := ⟨["Y"], none, ["all"], 0, 10, 0, 10, 0, 10, 0, 10⟩

/-- Witness for C5: concrete parameters yielding zero rows, and all seven
components answering their designated "no data" output. -/
theorem empty_filter_no_data_witness :
    filter_data c5f c5t = [] ∧
    (dataCardsUpdate (filter_data c5f c5t) = CardsOut.noData ∧
     dataTableUpdate (filter_data c5f c5t) = [] ∧
     barLogic (filter_data c5f c5t) 5 "desc" = FigOut.noData ∧
     scatterLogic (filter_data c5f c5t) "kilo_neto" 1 = FigOut.noData ∧
     diversityLogic (filter_data c5f c5t) "total" none none = FigOut.noData ∧
     treemapLogic (filter_data c5f c5t) "kilo_neto" = FigOut.noData ∧
     radarLogic (filter_data c5f c5t) ["X"] true = FigOut.noData) :=
  ⟨by decide,
   empty_filter_no_data c5f c5t (by decide) 5 "desc" "kilo_neto" 1 "total"
     none none ["X"] true⟩

/-- The chart payload of the bar ranking, extracted from a `chart`
answer. -/
theorem barLogic_chart {t : List Row} {n : Nat} {so : String}
    {L : List (String × Int × ℚ)} (hL : barLogic t n so = FigOut.chart L) :
    L = ((if so == "desc" then
        List.insertionSort barTotalAsc
          ((if so == "asc" then List.insertionSort barTotalAsc (barRows t)
            else List.insertionSort barTotalDesc (barRows t)).take n)
      else
        List.insertionSort barTotalDesc
          ((if so == "asc" then List.insertionSort barTotalAsc (barRows t)
            else List.insertionSort barTotalDesc (barRows t)).take n)).map
      (fun b => (b.aduana, b.total, (b.total : ℚ) / 1000000000000))) := by
  unfold barLogic at hL
  split at hL
  · cases hL
  · injection hL with h
    exact h.symm

/-- C6.  For the top-N bar ranking on a non-empty filtered table: the
emitted offices are those of the first N entries of the group-by-office
totals sorted in the user's requested order, and the emitted rows are
ordered ascending by value when the request was "desc" and descending by
value when the request was "asc". -/
theorem bar_ranking_order (t : List Row) (n : Nat) (so : String)
    (L : List (String × Int × ℚ)) (hL : barLogic t n so = FigOut.chart L) :
    (so = "desc" →
      (L.map (fun x => x.1)).Perm
        (((List.insertionSort barTotalDesc (barRows t)).take n).map (·.aduana)) ∧
      L.Pairwise (fun x y => x.2.1 ≤ y.2.1)) ∧
    (so = "asc" →
      (L.map (fun x => x.1)).Perm
        (((List.insertionSort barTotalAsc (barRows t)).take n).map (·.aduana)) ∧
      L.Pairwise (fun x y => y.2.1 ≤ x.2.1)) := by
  have hEq := barLogic_chart hL
  subst hEq
  constructor
  · intro hso
    subst hso
    constructor
    · rw [List.map_map]
      exact (List.perm_insertionSort barTotalAsc
        ((List.insertionSort barTotalDesc (barRows t)).take n)).map (·.aduana)
    · exact List.Pairwise.map _ (fun a b hab => hab)
        (List.sorted_insertionSort barTotalAsc
          ((List.insertionSort barTotalDesc (barRows t)).take n))
  · intro hso
    subst hso
    constructor
    · rw [List.map_map]
      exact (List.perm_insertionSort barTotalDesc
        ((List.insertionSort barTotalAsc (barRows t)).take n)).map (·.aduana)
    · exact List.Pairwise.map _ (fun a b hab => hab)
        (List.sorted_insertionSort barTotalDesc
          ((List.insertionSort barTotalAsc (barRows t)).take n))

/-- The emitted bar list for the witness: top-1 of the two-office
scenario table, requested descending. -/
def c6L : List (String × Int × ℚ) :=
  [("B", (200 : Int), ((200 : Int) : ℚ) / 1000000000000)]

/-- Witness for C6: on the two-office scenario table with top-1 and
"desc", the emitted offices are the top-1 descending selection and the
emitted order is ascending by value. -/
theorem bar_ranking_order_witness :
    barLogic c3wt 1 "desc" = FigOut.chart c6L ∧
    ((c6L.map (fun x => x.1)).Perm
      (((List.insertionSort barTotalDesc (barRows c3wt)).take 1).map (·.aduana)) ∧
     c6L.Pairwise (fun x y => x.2.1 ≤ y.2.1)) :=
  ⟨rfl, (bar_ranking_order c3wt 1 "desc" c6L rfl).1 rfl⟩

/-- The chart payload of the radar, extracted from a `chart` answer. -/
theorem radarLogic_chart {t : List Row} {sel : List String} {nrm : Bool}
    {trs : List (String × List FVal)}
    (hc : radarLogic t sel nrm = FigOut.chart trs) :
    trs = sel.filterMap (fun p =>
      if (radarGroups t sel).contains p then
        some (p,
          rmetrics.map (fun m =>
            if nrm then normedVal t sel m p else colVal t sel m p) ++
          [if nrm then normedVal t sel .total p else colVal t sel .total p])
      else none) := by
  unfold radarLogic at hc
  split at hc
  · cases hc
  · split at hc
    · cases hc
    · split at hc
      · cases hc
      · injection hc with h
        exact h.symm

/-- Each emitted radar trace belongs to a selected port with data, and its
value series is the five (possibly normalized) metrics closed by the
first value. -/
theorem mem_radar_trace {t : List Row} {sel : List String} {nrm : Bool}
    {trs : List (String × List FVal)} {p : String} {vs : List FVal}
    (hc : radarLogic t sel nrm = FigOut.chart trs) (hm : (p, vs) ∈ trs) :
    p ∈ radarGroups t sel ∧
    vs = rmetrics.map (fun m =>
        if nrm then normedVal t sel m p else colVal t sel m p) ++
      [if nrm then normedVal t sel .total p else colVal t sel .total p] := by
  rw [radarLogic_chart hc] at hm
  rcases List.mem_filterMap.1 hm with ⟨p', -, hp⟩
  by_cases hg : (radarGroups t sel).contains p' = true
  · rw [if_pos hg] at hp
    rcases Option.some.inj hp with hpair
    have h1 : p' = p := congrArg Prod.fst hpair
    subst h1
    refine ⟨by simpa using hg, ?_⟩
    exact (congrArg Prod.snd hpair).symm
  · rw [if_neg hg] at hp
    cases hp

/-- The value series of a trace reads metric `m` at position `ridx m`. -/
theorem trace_get (g : RMetric → FVal) (m : RMetric) :
    (rmetrics.map g ++ [g .total])[ridx m]? = some (g m) := by
  cases m <;> rfl

/-- C8.  In the radar with normalization enabled: a metric whose maximum
equals its minimum across the selected ports — a float comparison over
values that include the infinities and skip NaN — normalizes to exactly
1 for every emitted port (the scalar 1.0 column assignment), never NaN;
for a metric with unequal max and min every finite normalized cell lies
in [0, 1] (with an infinite max the finite cells normalize to 0, and
cells that are NaN or infinite stay non-finite, never outside [0, 1]). -/
theorem radar_zero_range_one (t : List Row) (sel : List String) (m : RMetric)
    (trs : List (String × List FVal))
    (hc : radarLogic t sel true = FigOut.chart trs) :
    (∀ v, listMax (radarFins t sel m) = some v →
      listMin (radarFins t sel m) = some v →
      ∀ p vs, (p, vs) ∈ trs → vs[ridx m]? = some (FVal.fin 1)) ∧
    (∀ mx mn, listMax (radarFins t sel m) = some mx →
      listMin (radarFins t sel m) = some mn → mx ≠ mn →
      ∀ p vs q, (p, vs) ∈ trs → vs[ridx m]? = some (FVal.fin q) →
        0 ≤ q ∧ q ≤ 1) := by
  constructor
  · intro v hmx hmn p vs hm
    obtain ⟨-, rfl⟩ := mem_radar_trace hc hm
    rw [trace_get]
    show some (normedVal t sel m p) = some (FVal.fin 1)
    unfold normedVal
    rw [hmx, hmn]
    simp
  · intro mx mn hmx hmn hne p vs q hm hq
    obtain ⟨hp, rfl⟩ := mem_radar_trace hc hm
    rw [trace_get] at hq
    have hq' : normedVal t sel m p = FVal.fin q := Option.some.inj hq
    unfold normedVal at hq'
    rw [hmx, hmn] at hq'
    have hq2 : (if mx = mn then FVal.fin 1
        else normCell (colVal t sel m p) mn mx) = FVal.fin q := hq'
    rw [if_neg hne] at hq2
    rcases mn with _ | (_ | mq)
    · -- mn = -inf: every normalized cell is NaN, contradiction
      rcases mx with _ | (_ | Mq) <;> simp [normCell] at hq2
    · -- mn = +inf: degenerate shape, every cell NaN, contradiction
      rcases mx with _ | (_ | Mq) <;> simp [normCell] at hq2
    · -- mn finite
      rcases mx with _ | (_ | Mq)
      · -- mx = ⊥: degenerate shape, contradiction
        simp [normCell] at hq2
      · -- mx = +inf: finite cells normalize to 0, others to NaN
        simp only [normCell] at hq2
        rcases hcv : colVal t sel m p with _ | _ | _ | x
        · rw [hcv] at hq2; simp at hq2
        · rw [hcv] at hq2; simp at hq2
        · rw [hcv] at hq2; simp at hq2
        · rw [hcv] at hq2
          have hq0 : (0 : ℚ) = q := by simpa using hq2
          subst hq0
          exact ⟨le_refl 0, by norm_num⟩
      · -- mx and mn both finite: the genuine min-max normalization
        simp only [normCell] at hq2
        rcases hcv : colVal t sel m p with _ | _ | _ | x
        · rw [hcv] at hq2; simp at hq2
        · rw [hcv] at hq2; simp at hq2
        · rw [hcv] at hq2; simp at hq2
        · rw [hcv] at hq2
          have hqx : (x - mq) / (Mq - mq) = q := by simpa using hq2
          have hxf : ((x : WithTop ℚ) : WithBot (WithTop ℚ)) ∈ radarFins t sel m := by
            unfold radarFins
            refine List.mem_filterMap.2
              ⟨colVal t sel m p, List.mem_map.2 ⟨p, hp, rfl⟩, ?_⟩
            rw [hcv]
            rfl
          have hb1 : ((mq : WithTop ℚ) : WithBot (WithTop ℚ)) ≤
              ((x : WithTop ℚ) : WithBot (WithTop ℚ)) := listMin_le hmn hxf
          have hb2 : ((x : WithTop ℚ) : WithBot (WithTop ℚ)) ≤
              ((Mq : WithTop ℚ) : WithBot (WithTop ℚ)) := listMax_le hmx hxf
          have hm1 : mq ≤ x := WithTop.coe_le_coe.1 (WithBot.coe_le_coe.1 hb1)
          have hm2 : x ≤ Mq := WithTop.coe_le_coe.1 (WithBot.coe_le_coe.1 hb2)
          have hMm : mq ≠ Mq := by
            intro hEq
            apply hne
            rw [hEq]
          have hlt : mq < Mq := lt_of_le_of_ne (hm1.trans hm2) hMm
          subst hqx
          constructor
          · exact div_nonneg (sub_nonneg.2 hm1) (le_of_lt (sub_pos.2 hlt))
          · rw [div_le_one (sub_pos.2 hlt)]
            exact sub_le_sub_right hm2 mq

/-- A single port whose weights sum to zero: weight_efficiency is 0/0 =
NaN, value_per_kg is 10/0 = +inf (a one-element column with max = min =
+inf, which the float comparison treats as equal, firing the scalar-1.0
branch), and the three sum metrics each have a one-element finite column
with max = min. -/
def c8row : Row := ⟨"P", some 0, some 0, some 10, some 3, none⟩

/-- The radar witness table. -/
def c8t : List Row := [c8row]

/-- The emitted value series of the witness trace: every zero-range
metric (the three sums and the all-inf value_per_kg column) at 1, the
all-NaN weight-efficiency column staying NaN, closed by the first
value. -/
def c8vs : List FVal := [.fin 1, .fin 1, .fin 1, .nan, .fin 1, .fin 1]

/-- The emitted traces of the witness. -/
def c8trs : List (String × List FVal) := [("P", c8vs)]

/-- Witness for C8: on the concrete table the total-value column has
max = min, and the theorem yields the constant-1 normalized cell of the
emitted trace. -/
theorem radar_zero_range_one_witness :
    radarLogic c8t ["P"] true = FigOut.chart c8trs ∧
    listMax (radarFins c8t ["P"] RMetric.total) =
      some ((((10 : Int) : ℚ) : WithTop ℚ) : WithBot (WithTop ℚ)) ∧
    listMin (radarFins c8t ["P"] RMetric.total) =
      some ((((10 : Int) : ℚ) : WithTop ℚ) : WithBot (WithTop ℚ)) ∧
    c8vs[ridx RMetric.total]? = some (FVal.fin 1) :=
  ⟨rfl, rfl, rfl,
   (radar_zero_range_one c8t ["P"] RMetric.total c8trs rfl).1
     ((((10 : Int) : ℚ) : WithTop ℚ) : WithBot (WithTop ℚ)) rfl rfl "P" c8vs
     (List.mem_singleton.2 rfl)⟩
